import Mathlib

/-!
Shallow embedding of `src/spacex-dash-app.py` (a Dash dashboard over a pandas
dataframe of SpaceX launch records) together with proofs about its two
reactive projections (`update_pie_chart`, `update_scatter_chart`) and its
layout (`app.layout`).

Embedding conventions:
* a dataframe row becomes a `Record`; the dataframe `spacex_df` becomes a
  `Dataset` (`List Record`) parameter, since the CSV itself is not part of
  the repository;
* the numeric column `Payload Mass (kg)` is modelled as `ℚ`;
* the column `class` (0 = failure, 1 = success) is modelled as `Nat`
  (field name `cls`, since `class` is reserved in Lean);
* `pandas` row filters become `List.filter`; `groupby(...).size()` and
  `value_counts()` become `groupCounts` (one entry per distinct value with
  its multiplicity).  `pandas` additionally orders the resulting rows
  (sorted keys for `groupby`, descending counts for `value_counts`);
  category order is not modelled — no property below depends on it;
* a plotly figure becomes a plain data value (`PieFig` / `ScatterFig`)
  recording the data subset and the labelling the source passes to
  `px.pie` / `px.scatter`.
-/

/-- One row of `spacex_df`: a single launch record.  Fields mirror the
columns used by the app: `Launch Site`, `Payload Mass (kg)`, `class`
(0/1 outcome, named `cls` here), `Booster Version Category`. -/
structure Record where
  launchSite : String
  payloadMass : ℚ
  cls : Nat
  boosterVersionCategory : String
deriving DecidableEq, Repr

/-- The in-memory dataframe `spacex_df`: an ordered, read-only collection of
records. -/
abbrev Dataset := List Record

/-- Distinct values of a list in order of first appearance, as
`pandas.Series.unique()` returns them. -/
def uniqueVals {α : Type} [DecidableEq α] (l : List α) : List α :=
  match l with
  | [] => []
  | x :: xs => x :: uniqueVals (xs.filter (fun y => !(y == x)))
termination_by l.length
decreasing_by
  simp only [List.length_cons]
  exact Nat.lt_succ_of_le (List.length_filter_le _ _)

/-- `groupby(col).size()` / `value_counts()`: one entry per distinct value of
the list, paired with the number of its occurrences. -/
def groupCounts {α : Type} [DecidableEq α] (l : List α) : List (α × Nat) :=
  (uniqueVals l).map (fun x => (x, l.count x))

/-- Line 78: `spacex_df[spacex_df['class'] == 1].groupby('Launch Site').size()`
— successful launches per site. -/
def successCounts (df : Dataset) : List (String × Nat) :=
  groupCounts ((df.filter (fun r => r.cls == 1)).map (fun r => r.launchSite))

/-- Line 85: `counts['class'].map({1: 'Success', 0: 'Failure'})`.  A value
outside `{0, 1}` is mapped by pandas to NaN, modelled as `none`. -/
def classLabel (v : Nat) : Option String :=
  if v = 1 then some "Success" else if v = 0 then some "Failure" else none

/-- Lines 82-85: filter to the selected site, `value_counts()` on `class`,
then relabel `1 ↦ "Success"`, `0 ↦ "Failure"`. -/
def siteOutcomeCounts (df : Dataset) (selected_site : String) :
    List (Option String × Nat) :=
  (groupCounts ((df.filter (fun r => r.launchSite == selected_site)).map
      (fun r => r.cls))).map (fun p => (classLabel p.1, p.2))

/-- The pie figure: the category/value rows handed to `px.pie` and the title.
The `ALL` branch categorises by site, the site branch by outcome label. -/
inductive PieFig where
  | bySite (categories : List (String × Nat)) (title : String)
  | byOutcome (categories : List (Option String × Nat)) (title : String)
deriving DecidableEq, Repr

/-- Lines 75-87: the `success-pie-chart` callback. -/
def update_pie_chart (df : Dataset) (selected_site : String) : PieFig :=
  if selected_site == "ALL" then
    PieFig.bySite (successCounts df) "Total Successful Launches by Site"
  else
    PieFig.byOutcome (siteOutcomeCounts df selected_site)
      ("Success vs Failure for site " ++ selected_site)

/-- One marker of the scatter figure: x = payload mass, y = the 0/1 outcome,
color = booster version category, hover metadata = launch site (attached
only in the `ALL` branch, line 115). -/
structure ScatterPoint where
  x : ℚ
  y : Nat
  color : String
  hoverSite : Option String
deriving DecidableEq, Repr

/-- Lines 99-100: rows whose `Payload Mass (kg)` lies in `[low, high]`
(both bounds inclusive). -/
def payloadFiltered (df : Dataset) (low high : ℚ) : Dataset :=
  df.filter (fun r => decide (low ≤ r.payloadMass ∧ r.payloadMass ≤ high))

/-- Lines 99-119: the data subset plotted by the scatter callback — the
payload filter always, plus the site filter when a concrete site is
selected. -/
def scatterRecords (df : Dataset) (selected_site : String) (low high : ℚ) :
    Dataset :=
  if selected_site == "ALL" then payloadFiltered df low high
  else (payloadFiltered df low high).filter
    (fun r => r.launchSite == selected_site)

/-- The scatter figure: markers plus the fixed axis/legend labelling set on
lines 133-143. -/
structure ScatterFig where
  points : List ScatterPoint
  title : String
  ytickvals : List Nat
  yticktext : List String
  xaxisTitle : String
  yaxisTitle : String
  legendTitle : String
deriving DecidableEq, Repr

/-- Lines 96-145: the `success-payload-scatter-chart` callback.  The slider
value arrives as the pair `(low, high)`. -/
def update_scatter_chart (df : Dataset) (selected_site : String)
    (payload_range : ℚ × ℚ) : ScatterFig :=
  let low := payload_range.1
  let high := payload_range.2
  { points := (scatterRecords df selected_site low high).map (fun r =>
      { x := r.payloadMass
        y := r.cls
        color := r.boosterVersionCategory
        hoverSite := if selected_site == "ALL" then some r.launchSite else none })
    title := if selected_site == "ALL" then
        "Correlation between Payload and Success for all Sites"
      else "Correlation between Payload and Success for site " ++ selected_site
    ytickvals := [0, 1]
    yticktext := ["Failure", "Success"]
    xaxisTitle := "Payload Mass (kg)"
    yaxisTitle := "Launch Outcome"
    legendTitle := "Booster Version" }

/-- Line 12: `spacex_df['Payload Mass (kg)'].min()` (NaN on an empty frame,
modelled as `⊤`). -/
def min_payload (df : Dataset) : WithTop ℚ :=
  (df.map (fun r => r.payloadMass)).minimum

/-- Line 11: `spacex_df['Payload Mass (kg)'].max()` (NaN on an empty frame,
modelled as `⊥`). -/
def max_payload (df : Dataset) : WithBot ℚ :=
  (df.map (fun r => r.payloadMass)).maximum

/-- The control parameters of `app.layout` (lines 23-61): the dropdown's
option values and default, and the range slider's bounds, step, default
value and handle-crossing behaviour. -/
structure Layout where
  dropdownOptions : List String
  dropdownValue : String
  sliderMin : ℚ
  sliderMax : ℚ
  sliderStep : ℚ
  sliderValue : WithTop ℚ × WithBot ℚ
  allowCross : Bool
  pushable : ℚ
deriving Repr

/-- Lines 18-67: `app.layout`, restricted to the control parameters.  The
dropdown offers `'ALL'` followed by `spacex_df['Launch Site'].unique()`;
the slider spans `[0, 10000]` with step `1000`, defaults to
`[min_payload, max_payload]` and has `allowCross=False`, `pushable=500`. -/
def appLayout (df : Dataset) : Layout :=
  { dropdownOptions := "ALL" :: uniqueVals (df.map (fun r => r.launchSite))
    dropdownValue := "ALL"
    sliderMin := 0
    sliderMax := 10000
    sliderStep := 1000
    sliderValue := (min_payload df, max_payload df)
    allowCross := false
    pushable := 500 }

/-- A single callback invocation as the Dash runtime issues it: either the
pie callback with the dropdown value, or the scatter callback with the
dropdown and slider values. -/
inductive Query where
  | pie (selected_site : String)
  | scatter (selected_site : String) (payload_range : ℚ × ℚ)
deriving DecidableEq

/-- A figure returned to the runtime by either callback. -/
inductive Fig where
  | pie (f : PieFig)
  | scatter (f : ScatterFig)
deriving DecidableEq

/-- Dispatch one callback invocation against the loaded dataset. -/
def answer (df : Dataset) (q : Query) : Fig :=
  match q with
  | Query.pie s => Fig.pie (update_pie_chart df s)
  | Query.scatter s pr => Fig.scatter (update_scatter_chart df s pr)

/-- A whole session: the runtime invokes the callbacks one after another;
the dataset is read-only and the callbacks keep no state between calls. -/
def runQueries (df : Dataset) (qs : List Query) : List Fig :=
  qs.map (answer df)

/-- The three-record example dataset used as concrete witness input. -/
def dfEx : Dataset :=
  [⟨"A", 500, 1, "v1"⟩, ⟨"A", 9000, 0, "v1"⟩, ⟨"B", 3000, 1, "v2"⟩]

/-! ### Helper lemmas about `uniqueVals` and `groupCounts` -/

theorem mem_uniqueVals {α : Type} [DecidableEq α] (l : List α) (a : α) :
    a ∈ uniqueVals l ↔ a ∈ l := by
  match l with
  | [] => simp [uniqueVals]
  | x :: xs =>
    rw [uniqueVals]
    have ih := mem_uniqueVals (xs.filter (fun y => !(y == x))) a
    simp only [List.mem_cons, ih, List.mem_filter, Bool.not_eq_eq_eq_not, Bool.not_true,
      beq_eq_false_iff_ne, ne_eq]
    by_cases h : a = x <;> simp [h]
termination_by l.length
decreasing_by
  simp only [List.length_cons]
  exact Nat.lt_succ_of_le (List.length_filter_le _ _)

theorem nodup_uniqueVals {α : Type} [DecidableEq α] (l : List α) :
    (uniqueVals l).Nodup := by
  match l with
  | [] => simp [uniqueVals]
  | x :: xs =>
    rw [uniqueVals]
    refine List.nodup_cons.2 ⟨?_, nodup_uniqueVals _⟩
    rw [mem_uniqueVals]
    simp
termination_by l.length
decreasing_by
  simp only [List.length_cons]
  exact Nat.lt_succ_of_le (List.length_filter_le _ _)

theorem sum_count_uniqueVals {α : Type} [DecidableEq α] (l : List α) :
    ((uniqueVals l).map (fun x => l.count x)).sum = l.length := by
  match l with
  | [] => simp [uniqueVals]
  | x :: xs =>
    rw [uniqueVals]
    have ih := sum_count_uniqueVals (xs.filter (fun y => !(y == x)))
    rw [List.map_cons, List.sum_cons]
    have hmap : (uniqueVals (xs.filter (fun y => !(y == x)))).map (fun k => (x :: xs).count k) =
        (uniqueVals (xs.filter (fun y => !(y == x)))).map
          (fun k => (xs.filter (fun y => !(y == x))).count k) := by
      apply List.map_congr_left
      intro k hk
      have hkx : k ≠ x := by
        have hmem := (mem_uniqueVals _ k).1 hk
        simp only [List.mem_filter, Bool.not_eq_eq_eq_not, Bool.not_true, beq_eq_false_iff_ne,
          ne_eq] at hmem
        exact hmem.2
      have hxk : ¬ x = k := fun h => hkx h.symm
      rw [List.count_cons, List.count_filter (by simpa using hkx)]
      simp [hkx, hxk]
    rw [hmap, ih]
    rw [List.count_cons]
    simp only [beq_self_eq_true, if_true, List.length_cons]
    have hsplit : xs.length = xs.countP (fun y => y == x) + xs.countP (fun y => !(y == x)) := by
      simpa using List.length_eq_countP_add_countP (fun y => y == x) (l := xs)
    have hcount : xs.count x = xs.countP (fun y => y == x) := rfl
    have hlen : (xs.filter (fun y => !(y == x))).length = xs.countP (fun y => !(y == x)) :=
      (List.countP_eq_length_filter _ _).symm
    omega
termination_by l.length
decreasing_by
  simp only [List.length_cons]
  exact Nat.lt_succ_of_le (List.length_filter_le _ _)

theorem keys_groupCounts {α : Type} [DecidableEq α] (l : List α) :
    (groupCounts l).map Prod.fst = uniqueVals l := by
  rw [groupCounts, List.map_map]
  exact List.map_id _

theorem snds_groupCounts {α : Type} [DecidableEq α] (l : List α) :
    (groupCounts l).map Prod.snd = (uniqueVals l).map (fun x => l.count x) := by
  simp [groupCounts, List.map_map, Function.comp]

theorem mem_groupCounts {α : Type} [DecidableEq α] (l : List α) (p : α × Nat) :
    p ∈ groupCounts l ↔ p.1 ∈ l ∧ p.2 = l.count p.1 := by
  simp only [groupCounts, List.mem_map, mem_uniqueVals]
  constructor
  · rintro ⟨x, hx, rfl⟩
    exact ⟨hx, rfl⟩
  · rintro ⟨h1, h2⟩
    obtain ⟨a, n⟩ := p
    exact ⟨a, h1, by simp_all⟩

theorem sum_groupCounts {α : Type} [DecidableEq α] (l : List α) :
    ((groupCounts l).map Prod.snd).sum = l.length := by
  rw [snds_groupCounts, sum_count_uniqueVals]

/-! ### C1, C2, C10 — the pie projection -/

/-- C1: with `selected_site = "ALL"`, the pie projection groups the
successful records by launch site — one category per site appearing among
the successes, counted per group — and the category counts sum to the
number of successful records in the whole dataset. -/
theorem update_pie_chart_all_groups_successes (df : Dataset) :
    update_pie_chart df "ALL" =
      PieFig.bySite (successCounts df) "Total Successful Launches by Site" ∧
    ((successCounts df).map Prod.fst).Nodup ∧
    (∀ s : String, s ∈ (successCounts df).map Prod.fst ↔
        s ∈ (df.filter (fun r => r.cls == 1)).map (fun r => r.launchSite)) ∧
    (∀ p ∈ successCounts df,
        p.2 = ((df.filter (fun r => r.cls == 1)).map (fun r => r.launchSite)).count p.1) ∧
    ((successCounts df).map Prod.snd).sum = (df.filter (fun r => r.cls == 1)).length := by
  refine ⟨rfl, ?_, ?_, ?_, ?_⟩
  · rw [successCounts, keys_groupCounts]
    exact nodup_uniqueVals _
  · intro s
    rw [successCounts, keys_groupCounts, mem_uniqueVals]
  · intro p hp
    rw [successCounts] at hp
    exact ((mem_groupCounts _ _).1 hp).2
  · rw [successCounts, sum_groupCounts, List.length_map]

/-- Witness for C1 at the concrete dataset `dfEx`: the category counts sum
to the dataset-wide number of successes, which evaluates to `2`. -/
theorem update_pie_chart_all_groups_successes_witness :
    ((successCounts dfEx).map Prod.snd).sum =
      (dfEx.filter (fun r => r.cls == 1)).length ∧
    ((successCounts dfEx).map Prod.snd).sum = 2 :=
  ⟨(update_pie_chart_all_groups_successes dfEx).2.2.2.2, by
    simp [successCounts, groupCounts, uniqueVals, dfEx]⟩

/-- C2: for a concrete selected site, the pie projection's category counts
sum to exactly the number of records whose launch site is that site. -/
theorem update_pie_chart_site_counts_sum (df : Dataset) (site : String)
    (h : site ∈ df.map (fun r => r.launchSite)) :
    ((siteOutcomeCounts df site).map Prod.snd).sum =
      (df.filter (fun r => r.launchSite == site)).length := by
  have hsnd : (siteOutcomeCounts df site).map Prod.snd =
      (groupCounts ((df.filter (fun r => r.launchSite == site)).map
        (fun r => r.cls))).map Prod.snd := by
    rw [siteOutcomeCounts, List.map_map]
    rfl
  rw [hsnd, sum_groupCounts, List.length_map]

/-- Witness for C2: site `"A"` is present in `dfEx` and its category counts
sum to the number of `"A"` records. -/
theorem update_pie_chart_site_counts_sum_witness :
    ("A" ∈ dfEx.map (fun r => r.launchSite)) ∧
    ((siteOutcomeCounts dfEx "A").map Prod.snd).sum =
      (dfEx.filter (fun r => r.launchSite == "A")).length :=
  ⟨by simp [dfEx], update_pie_chart_site_counts_sum dfEx "A" (by simp [dfEx])⟩

/-- C10: every category of the `"ALL"` pie has a strictly positive count,
and a site with no successful record yields no category at all. -/
theorem update_pie_chart_all_positive_counts (df : Dataset) :
    (∀ p ∈ successCounts df, 0 < p.2) ∧
    (∀ s : String, df.filter (fun r => r.cls == 1 && r.launchSite == s) = [] →
        s ∉ (successCounts df).map Prod.fst) := by
  constructor
  · intro p hp
    rw [successCounts] at hp
    have h := (mem_groupCounts _ _).1 hp
    rw [h.2]
    exact List.count_pos_iff.2 h.1
  · intro s hs hmem
    rw [successCounts, keys_groupCounts, mem_uniqueVals] at hmem
    obtain ⟨r, hr, hrs⟩ := List.mem_map.1 hmem
    rw [List.mem_filter] at hr
    have hr' : r ∈ df.filter (fun r => r.cls == 1 && r.launchSite == s) := by
      rw [List.mem_filter]
      exact ⟨hr.1, by simp [hr.2, hrs]⟩
    rw [hs] at hr'
    exact absurd hr' (List.not_mem_nil _)

/-- Witness for C10: in `dfEx` the category `("A", 1)` has a positive count
and the successless site `"C"` produces no category. -/
theorem update_pie_chart_all_positive_counts_witness :
    0 < (("A", 1) : String × Nat).2 ∧
    "C" ∉ (successCounts dfEx).map Prod.fst :=
  ⟨(update_pie_chart_all_positive_counts dfEx).1 ("A", 1)
      (by simp [successCounts, groupCounts, uniqueVals, dfEx]),
    (update_pie_chart_all_positive_counts dfEx).2 "C" (by decide)⟩

/-! ### C3 — single-site pie categories -/

theorem classLabel_eq_success_iff (v : Nat) :
    classLabel v = some "Success" ↔ v = 1 := by
  unfold classLabel
  split_ifs with h1 h0 <;> simp_all

theorem classLabel_eq_failure_iff (v : Nat) :
    classLabel v = some "Failure" ↔ v = 0 := by
  unfold classLabel
  split_ifs with h1 h0 <;> simp_all

theorem siteOutcomeCounts_dfEx_B :
    siteOutcomeCounts dfEx "B" = [(some "Success", 1)] := by
  simp [siteOutcomeCounts, groupCounts, uniqueVals, dfEx, classLabel]

/-- Counterexample to C3: in `dfEx`, site `"B"` has one success and zero
failures; the projection emits a single category — no zero-count
`"Failure"` slice — so the output does not contain exactly two
categories. -/
theorem update_pie_chart_site_two_categories_cex :
    (siteOutcomeCounts dfEx "B").length ≠ 2 ∧
    some "Failure" ∉ (siteOutcomeCounts dfEx "B").map Prod.fst := by
  rw [siteOutcomeCounts_dfEx_B]
  simp

/-- C3 as amended: the single-site pie contains one category per outcome
value actually present among that site's records, each with its count;
an outcome with zero records at the site is omitted, not rendered as a
zero-count category. -/
theorem update_pie_chart_site_present_categories (df : Dataset) (site : String) :
    (∀ p ∈ siteOutcomeCounts df site, 0 < p.2 ∧
       (p.1 = some "Success" →
         p.2 = ((df.filter (fun r => r.launchSite == site)).map (fun r => r.cls)).count 1) ∧
       (p.1 = some "Failure" →
         p.2 = ((df.filter (fun r => r.launchSite == site)).map (fun r => r.cls)).count 0)) ∧
    (some "Success" ∈ (siteOutcomeCounts df site).map Prod.fst ↔
       ∃ r ∈ df, r.launchSite = site ∧ r.cls = 1) ∧
    (some "Failure" ∈ (siteOutcomeCounts df site).map Prod.fst ↔
       ∃ r ∈ df, r.launchSite = site ∧ r.cls = 0) := by
  refine ⟨?_, ?_, ?_⟩
  · intro p hp
    rw [siteOutcomeCounts] at hp
    obtain ⟨q, hq, hqp⟩ := List.mem_map.1 hp
    have hmem := (mem_groupCounts _ _).1 hq
    subst hqp
    refine ⟨?_, ?_, ?_⟩
    · simpa [hmem.2] using List.count_pos_iff.2 hmem.1
    · intro hS
      rw [classLabel_eq_success_iff] at hS
      simpa [hS] using hmem.2
    · intro hF
      rw [classLabel_eq_failure_iff] at hF
      simpa [hF] using hmem.2
  · rw [siteOutcomeCounts, List.map_map]
    constructor
    · intro h
      obtain ⟨q, hq, hql⟩ := List.mem_map.1 h
      have hmem := (mem_groupCounts _ _).1 hq
      have hq1 : q.1 = 1 := (classLabel_eq_success_iff q.1).1 hql
      obtain ⟨r, hr, hrc⟩ := List.mem_map.1 (hq1 ▸ hmem.1)
      rw [List.mem_filter] at hr
      exact ⟨r, hr.1, by simpa using hr.2, hrc⟩
    · rintro ⟨r, hr, hsite, hcls⟩
      refine List.mem_map.2 ⟨(1, ((df.filter (fun r => r.launchSite == site)).map
        (fun r => r.cls)).count 1), ?_, by simp [classLabel_eq_success_iff]⟩
      refine (mem_groupCounts _ _).2 ⟨?_, rfl⟩
      exact List.mem_map.2 ⟨r, List.mem_filter.2 ⟨hr, by simp [hsite]⟩, hcls⟩
  · rw [siteOutcomeCounts, List.map_map]
    constructor
    · intro h
      obtain ⟨q, hq, hql⟩ := List.mem_map.1 h
      have hmem := (mem_groupCounts _ _).1 hq
      have hq0 : q.1 = 0 := (classLabel_eq_failure_iff q.1).1 hql
      obtain ⟨r, hr, hrc⟩ := List.mem_map.1 (hq0 ▸ hmem.1)
      rw [List.mem_filter] at hr
      exact ⟨r, hr.1, by simpa using hr.2, hrc⟩
    · rintro ⟨r, hr, hsite, hcls⟩
      refine List.mem_map.2 ⟨(0, ((df.filter (fun r => r.launchSite == site)).map
        (fun r => r.cls)).count 0), ?_, by simp [classLabel_eq_failure_iff]⟩
      refine (mem_groupCounts _ _).2 ⟨?_, rfl⟩
      exact List.mem_map.2 ⟨r, List.mem_filter.2 ⟨hr, by simp [hsite]⟩, hcls⟩

/-- Witness for the amended C3 at `dfEx`, site `"A"`: the `"Success"`
category is present because record `⟨"A", 500, 1, "v1"⟩` is a success at
`"A"`. -/
theorem update_pie_chart_site_present_categories_witness :
    some "Success" ∈ (siteOutcomeCounts dfEx "A").map Prod.fst :=
  ((update_pie_chart_site_present_categories dfEx "A").2.1).2
    ⟨⟨"A", 500, 1, "v1"⟩, by simp [dfEx], rfl, rfl⟩

/-! ### C4-C7 — the scatter projection -/

theorem mem_scatterRecords (df : Dataset) (site : String) (low high : ℚ) (r : Record) :
    r ∈ scatterRecords df site low high ↔
      r ∈ df ∧ (low ≤ r.payloadMass ∧ r.payloadMass ≤ high) ∧
        (site = "ALL" ∨ r.launchSite = site) := by
  by_cases h : site = "ALL"
  · subst h
    simp [scatterRecords, payloadFiltered, List.mem_filter, and_assoc]
  · have hb : (site == "ALL") = false := by simpa using h
    simp [scatterRecords, payloadFiltered, hb, List.mem_filter, h, and_assoc]
    tauto

theorem points_update_scatter_chart (df : Dataset) (site : String) (low high : ℚ) :
    (update_scatter_chart df site (low, high)).points =
      (scatterRecords df site low high).map (fun r =>
        { x := r.payloadMass, y := r.cls, color := r.boosterVersionCategory,
          hoverSite := if site == "ALL" then some r.launchSite else none }) := rfl

/-- C4: every scatter point has its x-coordinate (the payload mass of its
underlying record) inside the selected closed interval, and conversely
every record passing the payload filter — and the site filter when a
concrete site is selected — contributes the point with x = payload mass
and y = outcome. -/
theorem update_scatter_chart_payload_bounds (df : Dataset) (site : String)
    (low high : ℚ) :
    (∀ pt ∈ (update_scatter_chart df site (low, high)).points,
        low ≤ pt.x ∧ pt.x ≤ high ∧
        ∃ r ∈ scatterRecords df site low high, pt.x = r.payloadMass ∧ pt.y = r.cls) ∧
    (∀ r ∈ df, low ≤ r.payloadMass → r.payloadMass ≤ high →
        (site = "ALL" ∨ r.launchSite = site) →
        ({ x := r.payloadMass, y := r.cls, color := r.boosterVersionCategory,
           hoverSite := if site == "ALL" then some r.launchSite else none } : ScatterPoint)
          ∈ (update_scatter_chart df site (low, high)).points) := by
  constructor
  · intro pt hpt
    rw [points_update_scatter_chart] at hpt
    obtain ⟨r, hr, hrp⟩ := List.mem_map.1 hpt
    have hb := ((mem_scatterRecords df site low high r).1 hr).2.1
    subst hrp
    exact ⟨hb.1, hb.2, r, hr, rfl, rfl⟩
  · intro r hr h1 h2 h3
    rw [points_update_scatter_chart]
    exact List.mem_map.2
      ⟨r, (mem_scatterRecords df site low high r).2 ⟨hr, ⟨h1, h2⟩, h3⟩, rfl⟩

/-- Witness for C4: the success record of site `"A"` with payload `500`
appears as a point of the site-`"A"` scatter over `[0, 10000]`. -/
theorem update_scatter_chart_payload_bounds_witness :
    (⟨500, 1, "v1", none⟩ : ScatterPoint) ∈
      (update_scatter_chart dfEx "A" (0, 10000)).points := by
  have h := (update_scatter_chart_payload_bounds dfEx "A" 0 10000).2
    ⟨"A", 500, 1, "v1"⟩ (by simp [dfEx]) (by decide) (by decide) (Or.inr rfl)
  simpa using h

/-- C5: with a concrete site every plotted record's site identifier equals
the selection, and the `"ALL"` selection plots exactly the union over the
dataset's sites of the per-site selections for the same interval. -/
theorem update_scatter_chart_site_union (df : Dataset) (low high : ℚ) :
    (∀ site : String, site ≠ "ALL" →
        ∀ r ∈ scatterRecords df site low high, r.launchSite = site) ∧
    (∀ r : Record, r ∈ scatterRecords df "ALL" low high ↔
        ∃ site ∈ df.map (fun rec => rec.launchSite),
          r ∈ scatterRecords df site low high) := by
  constructor
  · intro site hsite r hr
    rcases ((mem_scatterRecords df site low high r).1 hr).2.2 with h1 | h2
    · exact absurd h1 hsite
    · exact h2
  · intro r
    constructor
    · intro hr
      have h := (mem_scatterRecords df "ALL" low high r).1 hr
      refine ⟨r.launchSite, List.mem_map.2 ⟨r, h.1, rfl⟩, ?_⟩
      exact (mem_scatterRecords df r.launchSite low high r).2 ⟨h.1, h.2.1, Or.inr rfl⟩
    · rintro ⟨site, hsite, hr⟩
      have h := (mem_scatterRecords df site low high r).1 hr
      exact (mem_scatterRecords df "ALL" low high r).2 ⟨h.1, h.2.1, Or.inl rfl⟩

/-- Witness for C5: the record plotted for the concrete site `"A"` indeed
has launch site `"A"`. -/
theorem update_scatter_chart_site_union_witness :
    (⟨"A", 500, 1, "v1"⟩ : Record).launchSite = "A" :=
  (update_scatter_chart_site_union dfEx 0 10000).1 "A" (by decide)
    ⟨"A", 500, 1, "v1"⟩ (by decide)

/-- C6: narrowing the payload interval shrinks the plotted record set —
the selection for a sub-interval is contained in the selection for any
containing interval, for every site selection. -/
theorem update_scatter_chart_interval_monotone (df : Dataset) (site : String)
    (low high low' high' : ℚ) (h1 : low ≤ low') (h2 : high' ≤ high) :
    ∀ r ∈ scatterRecords df site low' high', r ∈ scatterRecords df site low high := by
  intro r hr
  have h := (mem_scatterRecords df site low' high' r).1 hr
  exact (mem_scatterRecords df site low high r).2
    ⟨h.1, ⟨le_trans h1 h.2.1.1, le_trans h.2.1.2 h2⟩, h.2.2⟩

/-- Witness for C6: `[500, 3000] ⊆ [0, 10000]`, and the record plotted for
the narrow interval is plotted for the wide one as well. -/
theorem update_scatter_chart_interval_monotone_witness :
    (⟨"B", 3000, 1, "v2"⟩ : Record) ∈ scatterRecords dfEx "ALL" 0 10000 :=
  update_scatter_chart_interval_monotone dfEx "ALL" 0 10000 500 3000
    (by decide) (by decide) ⟨"B", 3000, 1, "v2"⟩ (by decide)

/-- C7: out-of-domain selections degrade to empty outputs instead of
failing — an unknown site yields an empty pie result set and an empty
scatter chart, an interval matching no record yields an empty chart, and
an inverted interval (`low > high`) yields an empty chart. -/
theorem update_charts_out_of_domain_empty (df : Dataset) (site : String)
    (low high : ℚ) :
    (site ∉ df.map (fun r => r.launchSite) → siteOutcomeCounts df site = []) ∧
    (site ∉ df.map (fun r => r.launchSite) → site ≠ "ALL" →
        scatterRecords df site low high = [] ∧
        (update_scatter_chart df site (low, high)).points = []) ∧
    ((∀ r ∈ df, ¬ (low ≤ r.payloadMass ∧ r.payloadMass ≤ high)) →
        scatterRecords df site low high = [] ∧
        (update_scatter_chart df site (low, high)).points = []) ∧
    (high < low →
        scatterRecords df site low high = [] ∧
        (update_scatter_chart df site (low, high)).points = []) := by
  have hempty : scatterRecords df site low high = [] →
      (update_scatter_chart df site (low, high)).points = [] := fun hsr => by
    rw [points_update_scatter_chart, hsr, List.map_nil]
  refine ⟨?_, ?_, ?_, ?_⟩
  · intro hns
    have hf : df.filter (fun r => r.launchSite == site) = [] := by
      rw [List.filter_eq_nil_iff]
      intro r hr hbeq
      exact hns (List.mem_map.2 ⟨r, hr, by simpa using hbeq⟩)
    rw [siteOutcomeCounts, hf]
    simp [groupCounts, uniqueVals]
  · intro hns hne
    have hsr : scatterRecords df site low high = [] := by
      rw [List.eq_nil_iff_forall_not_mem]
      intro r hr
      have h := (mem_scatterRecords df site low high r).1 hr
      rcases h.2.2 with h1 | h2
      · exact hne h1
      · exact hns (List.mem_map.2 ⟨r, h.1, h2⟩)
    exact ⟨hsr, hempty hsr⟩
  · intro hno
    have hsr : scatterRecords df site low high = [] := by
      rw [List.eq_nil_iff_forall_not_mem]
      intro r hr
      have h := (mem_scatterRecords df site low high r).1 hr
      exact hno r h.1 h.2.1
    exact ⟨hsr, hempty hsr⟩
  · intro hlt
    have hsr : scatterRecords df site low high = [] := by
      rw [List.eq_nil_iff_forall_not_mem]
      intro r hr
      have h := (mem_scatterRecords df site low high r).1 hr
      exact absurd (le_trans h.2.1.1 h.2.1.2) (not_le.2 hlt)
    exact ⟨hsr, hempty hsr⟩

/-- Witness for C7: the unknown site `"Z"` yields an empty pie result and
an empty scatter chart over `dfEx`, and the inverted interval
`[5000, 1000]` yields an empty scatter chart. -/
theorem update_charts_out_of_domain_empty_witness :
    siteOutcomeCounts dfEx "Z" = [] ∧
    (update_scatter_chart dfEx "Z" (0, 10000)).points = [] ∧
    (update_scatter_chart dfEx "A" (5000, 1000)).points = [] :=
  ⟨(update_charts_out_of_domain_empty dfEx "Z" 0 10000).1 (by decide),
    ((update_charts_out_of_domain_empty dfEx "Z" 0 10000).2.1 (by decide) (by decide)).2,
    ((update_charts_out_of_domain_empty dfEx "A" 5000 1000).2.2.2 (by decide)).2⟩

/-! ### C8 — statelessness, C9 — layout -/

/-- C8: the callbacks are deterministic, stateless functions of their
inputs — in any two invocation histories ending with the same query over
the same dataset, the last answers coincide; the result never depends on
previous invocations. -/
theorem update_charts_stateless (df : Dataset) (hist1 hist2 : List Query)
    (q : Query) :
    (runQueries df (hist1 ++ [q])).getLast? =
      (runQueries df (hist2 ++ [q])).getLast? := by
  simp only [runQueries, List.map_append, List.map_cons, List.map_nil,
    List.getLast?_concat]

/-- C9: the dropdown offers exactly `"ALL"` plus the distinct sites of the
dataset with default `"ALL"`, and the slider spans `[0, 10000]` with step
`1000`, non-crossing handles, and default `[dataset min, dataset max]`
payload. -/
theorem app_layout_controls (df : Dataset) (hne : df ≠ []) :
    (∀ s : String, s ∈ (appLayout df).dropdownOptions ↔
        s = "ALL" ∨ s ∈ df.map (fun r => r.launchSite)) ∧
    ("ALL" ∉ df.map (fun r => r.launchSite) → (appLayout df).dropdownOptions.Nodup) ∧
    (appLayout df).dropdownValue = "ALL" ∧
    (appLayout df).sliderMin = 0 ∧
    (appLayout df).sliderMax = 10000 ∧
    (appLayout df).sliderStep = 1000 ∧
    (appLayout df).allowCross = false ∧
    (∃ m M : ℚ, (appLayout df).sliderValue = (↑m, ↑M) ∧
        m ∈ df.map (fun r => r.payloadMass) ∧ M ∈ df.map (fun r => r.payloadMass) ∧
        ∀ x ∈ df.map (fun r => r.payloadMass), m ≤ x ∧ x ≤ M) := by
  refine ⟨?_, ?_, rfl, rfl, rfl, rfl, rfl, ?_⟩
  · intro s
    simp [appLayout, mem_uniqueVals]
  · intro hall
    refine List.nodup_cons.2 ⟨?_, nodup_uniqueVals _⟩
    rw [mem_uniqueVals]
    exact hall
  · have hmapne : df.map (fun r => r.payloadMass) ≠ [] := by
      simpa using hne
    obtain ⟨m, hm⟩ : ∃ m : ℚ, (df.map (fun r => r.payloadMass)).minimum = ↑m := by
      obtain ⟨m, hm⟩ :=
        WithTop.ne_top_iff_exists.1 (List.minimum_ne_top_of_ne_nil hmapne)
      exact ⟨m, hm.symm⟩
    obtain ⟨M, hM⟩ : ∃ M : ℚ, (df.map (fun r => r.payloadMass)).maximum = ↑M := by
      obtain ⟨M, hM⟩ :=
        WithBot.ne_bot_iff_exists.1 (List.maximum_ne_bot_of_ne_nil hmapne)
      exact ⟨M, hM.symm⟩
    have hmm := List.minimum_eq_coe_iff.1 hm
    have hMM := List.maximum_eq_coe_iff.1 hM
    exact ⟨m, M, by simp [appLayout, min_payload, max_payload, hm, hM],
      hmm.1, hMM.1, fun x hx => ⟨hmm.2 x hx, hMM.2 x hx⟩⟩

/-- Witness for C9: `dfEx` is nonempty and its layout defaults the dropdown
to `"ALL"`. -/
theorem app_layout_controls_witness :
    dfEx ≠ [] ∧ (appLayout dfEx).dropdownValue = "ALL" :=
  ⟨by decide, (app_layout_controls dfEx (by decide)).2.2.1⟩
